import Mathlib

/-!
# LookingGlass gateway — verification of the session lifecycle core

A shallow embedding of `src/main.go` of the LookingGlass repository:
the in-memory session registry, the login (provisioning) path, teardown
(`stopSession`), the idle-cleanup loop, the reverse-proxy handler and the
heartbeat endpoint.

Modelling conventions:
* The Go `map[string]Session` guarded by `sessionsMu` becomes an
  association list `Registry`; map assignment is `Registry.insert`
  (overwrite), `delete` is `Registry.erase`.
* Wall-clock time (`time.Now()`) is an explicit `Nat` parameter `now`
  (seconds); `time.Since(t) > d` becomes `d < now - t`.
* Randomness (`rand.Intn`) is an explicit parameter: each draw of the
  generator is a `Nat` handed to the function, reduced by `%` exactly as
  `Intn` bounds it.
* External commands (`mount`, `docker run`, `umount -l`, `docker rm -f`,
  `os.MkdirAll`, `os.RemoveAll`) are recorded as an ordered `List Effect`;
  their success or failure is an oracle (`Env`) since the Go code only
  branches on the error value.
* `sync.Mutex` is not reentrant in Go: acquiring it while it is already
  held blocks forever.  Where a claim depends on the locking discipline
  (the cleanup loop) the lock is modelled explicitly and a self-deadlock
  is `none`.
-/

set_option autoImplicit false

namespace LookingGlass

/-- `Session` record from `main.go`: information about a running user
desktop.  `LastActive` is a timestamp in seconds. -/
structure Session where
  username : String
  containerName : String
  overlayDir : String
  port : Nat
  lastActive : Nat
  ephemeral : Bool
  deriving Repr, DecidableEq

/-- The global `sessions` map, modelled as an association list from
session id to `Session`. -/
def Registry := List (String × Session)

instance : DecidableEq Registry := by
  unfold Registry
  infer_instance

/-- Map lookup `sessions[id]`. -/
def Registry.find : Registry → String → Option Session
  | [], _ => none
  | (k, v) :: rest, id => if k = id then some v else Registry.find rest id

/-- Map deletion `delete(sessions, id)`. -/
def Registry.erase (r : Registry) (id : String) : Registry :=
  List.filter (fun kv => kv.1 ≠ id) r

/-- Map assignment `sessions[id] = s` (insert or overwrite). -/
def Registry.insert (r : Registry) (id : String) (s : Session) : Registry :=
  (id, s) :: Registry.erase r id

/-- `baseOverlay` constant from `main.go`. -/
def baseOverlay : String := "/srv/overlays/base"

/-- `sessionExpiry = 10 * time.Minute`, in seconds. -/
def sessionExpiry : Nat := 600

/-- `filepath.Join` for the non-empty, already-clean path fragments used
in `main.go`. -/
def pjoin (a b : String) : String := a ++ "/" ++ b

/-- One external side effect shelled out by the gateway, in program
order. -/
inductive Effect where
  | mkdirAll (dir : String)
  | mountOverlay (lower upper work merged : String)
  | dockerRun (name : String) (port : Nat) (merged : String)
  | dockerRm (name : String)
  | umountLazy (merged : String)
  | removeAll (dir : String)
  deriving Repr, DecidableEq

/-- `stopSession` from `main.go`: looks the id up, and when present runs
`docker rm -f`, lazily unmounts `<overlayDir>/merged`, removes the whole
overlay directory when the session is ephemeral, and deletes the map
entry.  Absent id: no effect at all.  Returns the new registry and the
ordered effects. -/
def stopSession (reg : Registry) (sessionID : String) :
    Registry × List Effect :=
  match Registry.find reg sessionID with
  | none => (reg, [])
  | some s =>
      (Registry.erase reg sessionID,
        [Effect.dockerRm s.containerName,
         Effect.umountLazy (pjoin s.overlayDir "merged")]
          ++ if s.ephemeral then [Effect.removeAll s.overlayDir] else [])

/-- The effects `stopSession` performs for a given registry and id,
written out as a standalone function of the pre-state. -/
def teardownEffects (reg : Registry) (sessionID : String) : List Effect :=
  match Registry.find reg sessionID with
  | none => []
  | some s =>
      [Effect.dockerRm s.containerName,
       Effect.umountLazy (pjoin s.overlayDir "merged")]
        ++ if s.ephemeral then [Effect.removeAll s.overlayDir] else []

theorem Registry.find_erase_self (r : Registry) (id : String) :
    Registry.find (Registry.erase r id) id = none := by
  induction r with
  | nil => rfl
  | cons kv rest ih =>
      by_cases h : kv.1 = id
      · simpa [Registry.erase, List.filter, h] using ih
      · simpa [Registry.erase, Registry.find, h, List.filter] using ih

theorem Registry.find_insert_self (r : Registry) (id : String) (s : Session) :
    Registry.find (Registry.insert r id s) id = some s := by
  simp [Registry.insert, Registry.find]

theorem Registry.find_erase_ne (r : Registry) (id j : String) (h : j ≠ id) :
    Registry.find (Registry.erase r id) j = Registry.find r j := by
  induction r with
  | nil => rfl
  | cons kv rest ih =>
      by_cases hk : kv.1 = id
      · have : kv.1 ≠ j := by
          intro hj
          exact h (hj ▸ hk)
        simp [Registry.erase, List.filter, hk, Registry.find, this] at *
        simpa [this] using ih
      · by_cases hj : kv.1 = j
        · simp [Registry.erase, List.filter, hk, Registry.find, hj, h]
        · simpa [Registry.erase, List.filter, hk, Registry.find, hj] using ih

theorem stopSession_find_self (reg : Registry) (id : String) :
    Registry.find (stopSession reg id).1 id = none := by
  unfold stopSession
  cases h : Registry.find reg id with
  | none => simp [h]
  | some s => simpa [h] using Registry.find_erase_self reg id

/-! ## String helpers mirroring the `strings` package -/

/-- `strings.HasPrefix`, on character lists: `hasPrefix s pre` is true when
`pre` is an initial segment of `s`. -/
def hasPrefix : List Char → List Char → Bool
  | _, [] => true
  | [], _ :: _ => false
  | c :: cs, p :: ps => c = p && hasPrefix cs ps

/-- `strings.TrimPrefix(s, pre)`: drop `pre` when it is a prefix of `s`,
otherwise return `s` unchanged. -/
def trimPrefix (s pre : String) : String :=
  if hasPrefix s.data pre.data then String.mk (s.data.drop pre.data.length)
  else s

/-- Accumulator worker for `strings.SplitN(s, "/", 2)`: scan for the first
slash; `acc` holds the characters before it, reversed. -/
def splitN2Aux : List Char → List Char → List String
  | [], acc => [String.mk acc.reverse]
  | c :: rest, acc =>
      if c = '/' then [String.mk acc.reverse, String.mk rest]
      else splitN2Aux rest (c :: acc)

/-- `strings.SplitN(s, "/", 2)`: at most two pieces, split at the first
slash. -/
def splitN2 (s : String) : List String :=
  splitN2Aux s.data []

theorem hasPrefix_append (pre t : List Char) :
    hasPrefix (pre ++ t) pre = true := by
  induction pre with
  | nil => cases t <;> rfl
  | cons c cs ih => simp [hasPrefix, ih]

theorem String_data_append (a b : String) :
    (a ++ b).data = a.data ++ b.data := rfl

theorem trimPrefix_append (pre t : String) :
    trimPrefix (pre ++ t) pre = t := by
  unfold trimPrefix
  rw [String_data_append, hasPrefix_append]
  simp

theorem splitN2Aux_no_slash (l acc : List Char) (h : '/' ∉ l) :
    splitN2Aux l acc = [String.mk (acc.reverse ++ l)] := by
  induction l generalizing acc with
  | nil => simp [splitN2Aux]
  | cons c cs ih =>
      have hc : c ≠ '/' := fun hc => h (hc ▸ List.mem_cons_self c cs)
      have hcs : '/' ∉ cs := fun hm => h (List.mem_cons_of_mem c hm)
      simp [splitN2Aux, hc, ih (c :: acc) hcs]

theorem splitN2Aux_slash (id rest acc : List Char) (h : '/' ∉ id) :
    splitN2Aux (id ++ '/' :: rest) acc =
      [String.mk (acc.reverse ++ id), String.mk rest] := by
  induction id generalizing acc with
  | nil => simp [splitN2Aux]
  | cons c cs ih =>
      have hc : c ≠ '/' := fun hc => h (hc ▸ List.mem_cons_self c cs)
      have hcs : '/' ∉ cs := fun hm => h (List.mem_cons_of_mem c hm)
      simp [splitN2Aux, hc, ih (c :: acc) hcs]

theorem splitN2_eq_pair (id rest : String) (h : '/' ∉ id.data) :
    splitN2 (id ++ "/" ++ rest) = [id, rest] := by
  have hdata : (id ++ "/" ++ rest).data = id.data ++ '/' :: rest.data := by
    rw [String_data_append, String_data_append, List.append_assoc]
    rfl
  unfold splitN2
  rw [hdata, splitN2Aux_slash id.data rest.data [] h]
  simp

/-! ## Identifier and port allocator -/

/-- The `letters` alphabet from `main.go`. -/
def letters : List Char := "abcdefghijklmnopqrstuvwxyz0123456789".data

/-- `randSeq(n)`: a string of `n` alphanumeric characters.  Each call of
`rand.Intn(len(letters))` is the corresponding entry of `draws`, reduced
`% 36` exactly as `Intn` bounds it; missing draws default to `0`.  The
function uses only the raw generator output: it never consults the
session map. -/
def randSeq (draws : List Nat) (n : Nat) : String :=
  String.mk ((List.range n).map
    (fun i => letters.getD ((draws.getD i 0) % letters.length) 'a'))

/-- `randomPort()` from `main.go`: `10000 + rand.Intn(5000)`.  The draw is
the raw generator output, reduced `% 5000` as `Intn` bounds it.  The
function takes no registry argument because the Go code consults
nothing: the port is pure randomness. -/
def randomPort (draw : Nat) : Nat :=
  10000 + draw % 5000

/-! ## Login (provisioning) -/

/-- Parsed `<username>.conf`: the `[user]` section's `password` and
`overlay` keys. -/
structure UserConf where
  password : String
  overlay : String
  deriving Repr, DecidableEq

/-- Outcome oracle for one `login` request's external operations: the Go
code only branches on whether each call returned an error. -/
structure Env where
  /-- `r.ParseForm()` succeeded. -/
  formOk : Bool
  /-- `os.Stat(confPath)` did not report `IsNotExist`. -/
  confExists : Bool
  /-- `ini.Load(confPath)` result: `none` is a load error. -/
  conf : Option UserConf
  /-- Per-directory outcome of `os.MkdirAll`. -/
  mkdirOk : String → Bool
  /-- The `mount -t overlay` command succeeded. -/
  mountOk : Bool
  /-- The `docker run` command succeeded. -/
  dockerOk : Bool

/-- HTTP outcome of `login`, with the status codes of `main.go`. -/
inductive LoginResult where
  /-- `400 Invalid form` -/
  | invalidForm
  /-- `401 Invalid user` -/
  | invalidUser
  /-- `500 Config error` -/
  | configError
  /-- `401 Invalid credentials` -/
  | invalidCreds
  /-- `500 Failed to create overlay dirs` -/
  | mkdirFailed
  /-- `500 Failed to mount overlay` -/
  | mountFailed
  /-- `500 Failed to start container` -/
  | dockerFailed
  /-- `302` redirect to `/session/<id>` -/
  | redirect (sessionID : String)
  deriving Repr, DecidableEq

/-- The `MkdirAll` loop over `[upper, work, merged]`: runs in order,
stops at the first failure.  Returns the effects executed and whether
every call succeeded. -/
def mkdirLoop (ok : String → Bool) : List String → List Effect × Bool
  | [] => ([], true)
  | d :: rest =>
      if ok d then
        let (es, r) := mkdirLoop ok rest
        (Effect.mkdirAll d :: es, r)
      else ([Effect.mkdirAll d], false)

/-- `login` from `main.go`.  Randomness is explicit: `guestDraws` feeds
the `randSeq(6)` guest-directory token, `idDraws` the `randSeq(8)`
session id, `portDraw` the `randomPort()` call; `now` is `time.Now()`.
Returns the HTTP outcome, the new registry, and the external commands
run, in order.  On `docker run` failure the merged dir is lazily
unmounted and no session is registered. -/
def login (reg : Registry) (username password : String) (env : Env)
    (guestDraws idDraws : List Nat) (portDraw : Nat) (now : Nat) :
    LoginResult × Registry × List Effect :=
  if !env.formOk then (LoginResult.invalidForm, reg, [])
  else if !env.confExists then (LoginResult.invalidUser, reg, [])
  else
    match env.conf with
    | none => (LoginResult.configError, reg, [])
    | some cfg =>
        if cfg.password ≠ password then (LoginResult.invalidCreds, reg, [])
        else
          let (overlayDir, ephemeral) :=
            if cfg.overlay = "ephemeral" then
              (pjoin "/srv/overlays" ("guest-" ++ randSeq guestDraws 6), true)
            else (cfg.overlay, false)
          let upper := pjoin overlayDir "upper"
          let work := pjoin overlayDir "work"
          let merged := pjoin overlayDir "merged"
          let (mkEs, mkOk) := mkdirLoop env.mkdirOk [upper, work, merged]
          if !mkOk then (LoginResult.mkdirFailed, reg, mkEs)
          else
            let mountE := Effect.mountOverlay baseOverlay upper work merged
            if !env.mountOk then (LoginResult.mountFailed, reg, mkEs ++ [mountE])
            else
              let sessionID := randSeq idDraws 8
              let port := randomPort portDraw
              let containerName := "desktop-" ++ username ++ "-" ++ sessionID
              let runE := Effect.dockerRun containerName port merged
              if !env.dockerOk then
                (LoginResult.dockerFailed, reg,
                  mkEs ++ [mountE, runE, Effect.umountLazy merged])
              else
                (LoginResult.redirect sessionID,
                  Registry.insert reg sessionID
                    { username := username
                      containerName := containerName
                      overlayDir := overlayDir
                      port := port
                      lastActive := now
                      ephemeral := ephemeral },
                  mkEs ++ [mountE, runE])

/-! ## Request handlers: session page, proxy, heartbeat, logout -/

/-- Outcome of the `/session/` handler. -/
inductive PageResult where
  /-- `404 Session not found` -/
  | notFound
  /-- `session.html` rendered for this id -/
  | page (sessionID : String)
  deriving Repr, DecidableEq

/-- `session` handler from `main.go`: trims `/session/`, touches
`LastActive` when the id is live, 404 otherwise. -/
def sessionPage (reg : Registry) (path : String) (now : Nat) :
    PageResult × Registry :=
  let sessionID := trimPrefix path "/session/"
  match Registry.find reg sessionID with
  | some s =>
      (PageResult.page sessionID,
        Registry.insert reg sessionID { s with lastActive := now })
  | none => (PageResult.notFound, reg)

/-- Outcome of the `/proxy/` handler. -/
inductive ProxyResult where
  /-- `400 Bad proxy path` -/
  | badPath
  /-- `404 Session not found` -/
  | notFound
  /-- request forwarded to `http://<host>:<port>` with rewritten `path` -/
  | forward (host : String) (port : Nat) (path : String)
  deriving Repr, DecidableEq

/-- `proxyHandler` from `main.go`: splits the path after `/proxy/` at the
first slash into id and rest; fewer than two pieces is a 400 before any
registry access; an unknown id is a 404 with no forwarding; otherwise the
session is touched and the request forwarded to `127.0.0.1:<port>` with
path `/<rest>`. -/
def proxyHandler (reg : Registry) (path : String) (now : Nat) :
    ProxyResult × Registry :=
  let parts := splitN2 (trimPrefix path "/proxy/")
  if parts.length < 2 then (ProxyResult.badPath, reg)
  else
    let sessionID := parts.getD 0 ""
    let rest := parts.getD 1 ""
    match Registry.find reg sessionID with
    | none => (ProxyResult.notFound, reg)
    | some s =>
        (ProxyResult.forward "127.0.0.1" s.port ("/" ++ rest),
          Registry.insert reg sessionID { s with lastActive := now })

/-- `ping` handler from `main.go`: touches `LastActive` when the id is
live, silently no-op otherwise; always answers 200. -/
def ping (reg : Registry) (path : String) (now : Nat) : Registry :=
  let sessionID := trimPrefix path "/ping/"
  match Registry.find reg sessionID with
  | some s => Registry.insert reg sessionID { s with lastActive := now }
  | none => reg

/-- `logout` handler from `main.go`: `stopSession` then a 302 redirect to
`/` regardless. -/
def logout (reg : Registry) (path : String) : Registry × List Effect :=
  stopSession reg (trimPrefix path "/logout/")

/-! ## The idle-cleanup loop and the `sessionsMu` lock

Go's `sync.Mutex` is not reentrant: a goroutine that calls `Lock()` on a
mutex it already holds blocks forever.  `cleanupLoop` iterates over
`sessions` while holding `sessionsMu` and, for each expired id, calls
`stopSession`, whose first statement is `sessionsMu.Lock()`.  The lock is
therefore modelled explicitly here: an acquisition attempt while the
mutex is `held` is a deadlock, rendered as `none`. -/

/-- State of `sessionsMu` from the calling goroutine's point of view. -/
inductive LockState where
  | free
  | held
  deriving Repr, DecidableEq

/-- `stopSession` including its leading `sessionsMu.Lock()`: with the
mutex already held by the calling goroutine the call never returns
(`none`); with it free the body of `stopSession` runs. -/
def stopSessionLocked (lock : LockState) (reg : Registry)
    (sessionID : String) : Option (Registry × List Effect) :=
  match lock with
  | LockState.held => none
  | LockState.free => some (stopSession reg sessionID)

/-- The `for id, s := range sessions` body of `cleanupLoop`, iterating
over a snapshot of the entries while `sessionsMu` is held.  An expired
entry (`time.Since(s.LastActive) > sessionExpiry`) triggers
`stopSession(id)` — with the mutex still held. -/
def cleanupGo (now : Nat) : List (String × Session) → Registry → Option Registry
  | [], reg => some reg
  | (id, s) :: rest, reg =>
      if sessionExpiry < now - s.lastActive then
        match stopSessionLocked LockState.held reg id with
        | none => none
        | some (reg', _) => cleanupGo now rest reg'
      else cleanupGo now rest reg

/-- One iteration of `cleanupLoop` from `main.go`: take `sessionsMu`
(free at that point), scan all sessions, release it.  `none` means the
scan never completes. -/
def cleanupScan (reg : Registry) (now : Nat) : Option Registry :=
  cleanupGo now reg reg

/-! ## Concrete fixtures for witnesses and counterexamples -/

/-- A live non-ephemeral session used by witnesses. -/
def demoSession : Session :=
  { username := "alice"
    containerName := "desktop-alice-abc12345"
    overlayDir := "/srv/overlays/alice"
    port := 12345
    lastActive := 3
    ephemeral := false }

/-- A one-session registry used by witnesses. -/
def demoReg : Registry := [("abc12345", demoSession)]

/-- A live ephemeral (guest) session used by witnesses. -/
def guestSession : Session :=
  { username := "guest"
    containerName := "desktop-guest-g1g1g1g1"
    overlayDir := "/srv/overlays/guest-qqqqqq"
    port := 10042
    lastActive := 9
    ephemeral := true }

/-- A registry holding the guest session. -/
def guestReg : Registry := [("g1g1g1g1", guestSession)]

/-- Bob's persistent user configuration. -/
def bobConf : UserConf := { password := "pw", overlay := "/srv/overlays/bob" }

/-- Alice's persistent user configuration, whose overlay path is
`demoSession`'s overlay directory. -/
def aliceConf : UserConf := { password := "pw", overlay := "/srv/overlays/alice" }

/-- An `Env` in which authentication succeeds against Bob's persistent
configuration and every external operation succeeds. -/
def envOk : Env :=
  { formOk := true
    confExists := true
    conf := some bobConf
    mkdirOk := fun _ => true
    mountOk := true
    dockerOk := true }

/-- Like `envOk` but the `docker run` command fails. -/
def envDockerFail : Env := { envOk with dockerOk := false }

/-- Like `envOk` but authenticating against Alice's configuration. -/
def envAlice : Env := { envOk with conf := some aliceConf }

/-! ## Characterisation of `login` -/

/-- The overlay directory `login` chooses (lines 118–127 of `main.go`):
a fresh guest directory under `/srv/overlays` when the configuration
says `ephemeral`, the configured path otherwise. -/
def chosenOverlayDir (cfg : UserConf) (guestDraws : List Nat) : String :=
  if cfg.overlay = "ephemeral" then
    pjoin "/srv/overlays" ("guest-" ++ randSeq guestDraws 6)
  else cfg.overlay

/-- Happy path of `login` against a persistent (non-ephemeral)
configuration: the generated id is registered with the configured
overlay directory, the drawn port and `lastActive = now`, and the
effects are the three `MkdirAll`s, the overlay mount and the container
launch, in order. -/
theorem login_success (reg : Registry) (username pw : String) (env : Env)
    (gd idd : List Nat) (pd now : Nat) (cfg : UserConf)
    (hform : env.formOk = true) (hstat : env.confExists = true)
    (hconf : env.conf = some cfg) (hpw : cfg.password = pw)
    (hmk : ∀ d, env.mkdirOk d = true) (hmount : env.mountOk = true)
    (hdocker : env.dockerOk = true) (hne : cfg.overlay ≠ "ephemeral") :
    login reg username pw env gd idd pd now =
      (LoginResult.redirect (randSeq idd 8),
       Registry.insert reg (randSeq idd 8)
         { username := username
           containerName := "desktop-" ++ username ++ "-" ++ randSeq idd 8
           overlayDir := cfg.overlay
           port := randomPort pd
           lastActive := now
           ephemeral := false },
       [Effect.mkdirAll (pjoin cfg.overlay "upper"),
        Effect.mkdirAll (pjoin cfg.overlay "work"),
        Effect.mkdirAll (pjoin cfg.overlay "merged"),
        Effect.mountOverlay baseOverlay (pjoin cfg.overlay "upper")
          (pjoin cfg.overlay "work") (pjoin cfg.overlay "merged"),
        Effect.dockerRun ("desktop-" ++ username ++ "-" ++ randSeq idd 8)
          (randomPort pd) (pjoin cfg.overlay "merged")]) := by
  unfold login
  simp [hform, hstat, hconf, hpw, hne, mkdirLoop, hmk, hmount, hdocker]

/-! ## Claim theorems -/

/-- A live session already bound to port 10000, the bottom of
`randomPort`'s range. -/
def lowPortSession : Session :=
  { username := "alice"
    containerName := "desktop-alice-sess0"
    overlayDir := "/srv/overlays/alice"
    port := 10000
    lastActive := 0
    ephemeral := false }

/-- A registry in which port 10000 is already assigned to a live
session. -/
def portCollideReg : Registry := [("sess0", lowPortSession)]

/-- **C1** (violated by the code): `randomPort` is
`10000 + rand.Intn(5000)` and consults neither the Registry nor any
allocation set, so for a generator draw of `0` a successful login hands
the new session port 10000 even though the live session `sess0` already
holds port 10000: after the call two distinct live sessions share one
port. -/
theorem randomPort_collides_with_live_session :
    (Registry.find portCollideReg "sess0").map Session.port = some 10000 ∧
    (login portCollideReg "bob" "pw" envOk [] [1] 0 5).1 =
      LoginResult.redirect "baaaaaaa" ∧
    "baaaaaaa" ≠ "sess0" ∧
    (Registry.find (login portCollideReg "bob" "pw" envOk [] [1] 0 5).2.1
        "baaaaaaa").map Session.port = some 10000 ∧
    (Registry.find (login portCollideReg "bob" "pw" envOk [] [1] 0 5).2.1
        "sess0").map Session.port = some 10000 :=
  ⟨rfl, rfl, by decide, rfl, rfl⟩

/-- A registry in which session id `"aaaaaaaa"` — exactly `randSeq` of
all-zero generator draws — is live. -/
def idCollideReg : Registry := [("aaaaaaaa", demoSession)]

/-- **C2** (violated by the code): `randSeq(8)` never consults the
session map, so when the generator draws produce an id that is already
live, `login` still succeeds and silently overwrites the live entry:
the returned id was present in the Registry immediately before the
call, contradicting the claim that it is always absent. -/
theorem randSeq_id_reused_while_live :
    Registry.find idCollideReg (randSeq [] 8) = some demoSession ∧
    (login idCollideReg "bob" "pw" envOk [] [] 0 7).1 =
      LoginResult.redirect (randSeq [] 8) ∧
    Registry.find (login idCollideReg "bob" "pw" envOk [] [] 0 7).2.1
        (randSeq [] 8) ≠ some demoSession :=
  ⟨rfl, rfl, by decide⟩

/-- **C3** (confirmed): when every step up to and including the overlay
mount succeeds but `docker run` fails, `login` answers the provisioning
failure `500 Failed to start container`, leaves the Registry exactly as
it was (no partial session is ever registered), and its final external
action is the rollback `umount -l` of the merged mountpoint. -/
theorem login_docker_fail_rollback (reg : Registry) (username pw : String)
    (env : Env) (gd idd : List Nat) (pd now : Nat) (cfg : UserConf)
    (hform : env.formOk = true) (hstat : env.confExists = true)
    (hconf : env.conf = some cfg) (hpw : cfg.password = pw)
    (hmk : ∀ d, env.mkdirOk d = true) (hmount : env.mountOk = true)
    (hdocker : env.dockerOk = false) :
    login reg username pw env gd idd pd now =
      (LoginResult.dockerFailed, reg,
       [Effect.mkdirAll (pjoin (chosenOverlayDir cfg gd) "upper"),
        Effect.mkdirAll (pjoin (chosenOverlayDir cfg gd) "work"),
        Effect.mkdirAll (pjoin (chosenOverlayDir cfg gd) "merged"),
        Effect.mountOverlay baseOverlay (pjoin (chosenOverlayDir cfg gd) "upper")
          (pjoin (chosenOverlayDir cfg gd) "work")
          (pjoin (chosenOverlayDir cfg gd) "merged"),
        Effect.dockerRun ("desktop-" ++ username ++ "-" ++ randSeq idd 8)
          (randomPort pd) (pjoin (chosenOverlayDir cfg gd) "merged"),
        Effect.umountLazy (pjoin (chosenOverlayDir cfg gd) "merged")]) := by
  unfold login chosenOverlayDir
  by_cases hguest : cfg.overlay = "ephemeral" <;>
    simp [hform, hstat, hconf, hpw, hguest, mkdirLoop, hmk, hmount, hdocker]

/-- Witness for `login_docker_fail_rollback` at a concrete input. -/
theorem login_docker_fail_rollback_witness :
    login demoReg "bob" "pw" envDockerFail [] [1] 0 5 =
      (LoginResult.dockerFailed, demoReg,
       [Effect.mkdirAll (pjoin (chosenOverlayDir bobConf []) "upper"),
        Effect.mkdirAll (pjoin (chosenOverlayDir bobConf []) "work"),
        Effect.mkdirAll (pjoin (chosenOverlayDir bobConf []) "merged"),
        Effect.mountOverlay baseOverlay (pjoin (chosenOverlayDir bobConf []) "upper")
          (pjoin (chosenOverlayDir bobConf []) "work")
          (pjoin (chosenOverlayDir bobConf []) "merged"),
        Effect.dockerRun ("desktop-" ++ "bob" ++ "-" ++ randSeq [1] 8)
          (randomPort 0) (pjoin (chosenOverlayDir bobConf []) "merged"),
        Effect.umountLazy (pjoin (chosenOverlayDir bobConf []) "merged")]) :=
  login_docker_fail_rollback demoReg "bob" "pw" envDockerFail [] [1] 0 5 bobConf
    rfl rfl rfl rfl (fun _ => rfl) rfl rfl

/-- **C4** (confirmed): `stopSession` is idempotent.  The first call
removes the id from the Registry and performs exactly the teardown
effects determined by the pre-state (container removal, lazy unmount,
storage deletion iff ephemeral; nothing when the id is absent); the
second call in succession returns the same registry with an empty
effect list — a no-op that cannot error — and the id is in the Registry
after neither call. -/
theorem stopSession_idempotent (reg : Registry) (id : String) :
    Registry.find (stopSession reg id).1 id = none ∧
    stopSession (stopSession reg id).1 id = ((stopSession reg id).1, []) ∧
    (stopSession reg id).2 = teardownEffects reg id := by
  refine ⟨stopSession_find_self reg id, ?_, ?_⟩
  · have h := stopSession_find_self reg id
    unfold stopSession
    unfold stopSession at h
    cases hf : Registry.find reg id with
    | none => simp [hf] at h ⊢
    | some s =>
        simp [hf] at h ⊢
        simp [h]
  · unfold stopSession teardownEffects
    cases Registry.find reg id <;> rfl

/-- An expired session: `lastActive = 0`, scanned at `now = 700`,
well past the 600-second idle threshold. -/
def idleSession : Session :=
  { username := "alice"
    containerName := "desktop-alice-idle0001"
    overlayDir := "/srv/overlays/alice"
    port := 10500
    lastActive := 0
    ephemeral := false }

/-- A registry holding only the expired session. -/
def idleReg : Registry := [("idle0001", idleSession)]

/-- **C6** (violated by the code): `cleanupLoop` calls `stopSession`
while still holding `sessionsMu`, and `stopSession`'s first statement
re-locks that same non-reentrant mutex, so the very first expired
session deadlocks the scan — the session is never removed (and the
mutex is never released).  The scan only completes, removing nothing,
when no session is expired. -/
theorem cleanup_scan_deadlocks :
    sessionExpiry < 700 - idleSession.lastActive ∧
    cleanupScan idleReg 700 = none ∧
    cleanupScan demoReg 500 = some demoReg :=
  ⟨by decide, rfl, rfl⟩

/-- **C10** (confirmed): when the path after `/proxy/` splits into fewer
than two pieces, `proxyHandler` answers `400 Bad proxy path` and
returns the registry unchanged — no forwarding and no `lastActive`
touch, the 400 being decided before any registry lookup. -/
theorem proxy_malformed_frame (reg : Registry) (path : String) (now : Nat)
    (h : (splitN2 (trimPrefix path "/proxy/")).length < 2) :
    proxyHandler reg path now = (ProxyResult.badPath, reg) := by
  unfold proxyHandler
  simp [h]

/-- Witness for `proxy_malformed_frame`: `/proxy/abc` has no sub-path. -/
theorem proxy_malformed_frame_witness :
    (splitN2 (trimPrefix "/proxy/abc" "/proxy/")).length < 2 ∧
    proxyHandler demoReg "/proxy/abc" 5 = (ProxyResult.badPath, demoReg) :=
  ⟨by decide, proxy_malformed_frame demoReg "/proxy/abc" 5 (by decide)⟩

/-- **C7** (confirmed): for a well-formed proxy path
`/proxy/<id>/<rest>`, an id that does not resolve in the Registry gets
`404 Session not found` and nothing is forwarded; an id that resolves
to session `s` gets the request forwarded to `127.0.0.1` on `s.port`
with the path rewritten to `/<rest>` — the `/proxy/<id>` prefix
dropped — while `s`'s activity is touched. -/
theorem proxy_resolution (reg : Registry) (id rest : String) (now : Nat)
    (h : '/' ∉ id.data) :
    (Registry.find reg id = none →
        proxyHandler reg ("/proxy/" ++ (id ++ "/" ++ rest)) now =
          (ProxyResult.notFound, reg)) ∧
    (∀ s : Session, Registry.find reg id = some s →
        proxyHandler reg ("/proxy/" ++ (id ++ "/" ++ rest)) now =
          (ProxyResult.forward "127.0.0.1" s.port ("/" ++ rest),
           Registry.insert reg id { s with lastActive := now })) := by
  unfold proxyHandler
  rw [trimPrefix_append, splitN2_eq_pair id rest h]
  constructor
  · intro hn
    simp [hn]
  · intro s hs
    simp [hs]

/-- Witness for `proxy_resolution`: the live id `abc12345` is forwarded
to its backend port with the prefix dropped; the dead id `zzz` gets a
404 with the registry untouched. -/
theorem proxy_resolution_witness :
    ('/' ∉ "abc12345".data) ∧
    proxyHandler demoReg ("/proxy/" ++ ("abc12345" ++ "/" ++ "vnc/websockify")) 99 =
      (ProxyResult.forward "127.0.0.1" demoSession.port ("/" ++ "vnc/websockify"),
       Registry.insert demoReg "abc12345" { demoSession with lastActive := 99 }) ∧
    proxyHandler demoReg ("/proxy/" ++ ("zzz" ++ "/" ++ "x")) 99 =
      (ProxyResult.notFound, demoReg) :=
  ⟨by decide,
   (proxy_resolution demoReg "abc12345" "vnc/websockify" 99 (by decide)).2
     demoSession rfl,
   (proxy_resolution demoReg "zzz" "x" 99 (by decide)).1 rfl⟩

/-- **C8** (confirmed): under the monotone-clock assumption that the
current `time.Now()` reading is at least the stored `lastActive`
(which Go's monotonic clock guarantees within one process), each of the
heartbeat (`/ping/`), session-page (`/session/`) and proxy-forward
(`/proxy/`) touches of a live session rewrites `lastActive` to `now`,
a value ≥ its previous value — `lastActive` never decreases. -/
theorem lastActive_never_decreases (reg : Registry) (id rest : String)
    (s : Session) (now : Nat) (hfind : Registry.find reg id = some s)
    (hclock : s.lastActive ≤ now) (hid : '/' ∉ id.data) :
    s.lastActive ≤ now ∧
    Registry.find (ping reg ("/ping/" ++ id) now) id =
      some { s with lastActive := now } ∧
    Registry.find (sessionPage reg ("/session/" ++ id) now).2 id =
      some { s with lastActive := now } ∧
    Registry.find (proxyHandler reg ("/proxy/" ++ (id ++ "/" ++ rest)) now).2 id =
      some { s with lastActive := now } := by
  refine ⟨hclock, ?_, ?_, ?_⟩
  · unfold ping
    rw [trimPrefix_append]
    simp [hfind, Registry.find_insert_self]
  · unfold sessionPage
    rw [trimPrefix_append]
    simp [hfind, Registry.find_insert_self]
  · unfold proxyHandler
    rw [trimPrefix_append, splitN2_eq_pair id rest hid]
    simp [hfind, Registry.find_insert_self]

/-- Witness for `lastActive_never_decreases` on `demoSession`
(`lastActive = 3`) touched at `now = 50`. -/
theorem lastActive_never_decreases_witness :
    demoSession.lastActive ≤ 50 ∧
    Registry.find (ping demoReg ("/ping/" ++ "abc12345") 50) "abc12345" =
      some { demoSession with lastActive := 50 } ∧
    Registry.find (sessionPage demoReg ("/session/" ++ "abc12345") 50).2 "abc12345" =
      some { demoSession with lastActive := 50 } ∧
    Registry.find
        (proxyHandler demoReg ("/proxy/" ++ ("abc12345" ++ "/" ++ "x")) 50).2
        "abc12345" =
      some { demoSession with lastActive := 50 } :=
  lastActive_never_decreases demoReg "abc12345" "x" demoSession 50 rfl
    (by decide) (by decide)

/-- **C5** (confirmed): for a live ephemeral session, `stopSession`'s
effects end with `os.RemoveAll` of the whole overlay directory — the
entire per-session storage tree is destroyed; for a live non-ephemeral
session the effects are exactly the container removal and the lazy
unmount of `merged` — no `RemoveAll` runs, so the upper layer's
contents survive — and a later successful login against the owner's
configuration (whose `overlay` is that same directory) registers a
session with the very same `overlayDir`, reusing the preserved
storage. -/
theorem stopSession_storage (reg : Registry) (id : String) (s : Session)
    (h : Registry.find reg id = some s) :
    (s.ephemeral = true →
        (stopSession reg id).2 =
          [Effect.dockerRm s.containerName,
           Effect.umountLazy (pjoin s.overlayDir "merged"),
           Effect.removeAll s.overlayDir]) ∧
    (s.ephemeral = false →
        (stopSession reg id).2 =
          [Effect.dockerRm s.containerName,
           Effect.umountLazy (pjoin s.overlayDir "merged")] ∧
        (∀ d, Effect.removeAll d ∉ (stopSession reg id).2) ∧
        ∀ (reg₂ : Registry) (pw : String) (env : Env) (gd idd : List Nat)
          (pd now : Nat) (cfg : UserConf),
            env.formOk = true → env.confExists = true →
            env.conf = some cfg → cfg.password = pw →
            (∀ d, env.mkdirOk d = true) → env.mountOk = true →
            env.dockerOk = true → cfg.overlay = s.overlayDir →
            s.overlayDir ≠ "ephemeral" →
            (Registry.find (login reg₂ s.username pw env gd idd pd now).2.1
                (randSeq idd 8)).map Session.overlayDir = some s.overlayDir) := by
  constructor
  · intro he
    simp [stopSession, h, he]
  · intro he
    refine ⟨by simp [stopSession, h, he], ?_, ?_⟩
    · intro d
      simp [stopSession, h, he]
    · intro reg₂ pw env gd idd pd now cfg hform hstat hconf hpw hmk hmount
        hdocker hover hne
      rw [login_success reg₂ s.username pw env gd idd pd now cfg hform hstat
        hconf hpw hmk hmount hdocker (hover ▸ hne)]
      simp [Registry.find_insert_self, hover]

/-- Witness for `stopSession_storage`: teardown of the live guest
session destroys its whole tree; teardown of Alice's persistent session
only removes the container and lazily unmounts, and a fresh login
against Alice's configuration reuses `/srv/overlays/alice`. -/
theorem stopSession_storage_witness :
    (stopSession guestReg "g1g1g1g1").2 =
      [Effect.dockerRm guestSession.containerName,
       Effect.umountLazy (pjoin guestSession.overlayDir "merged"),
       Effect.removeAll guestSession.overlayDir] ∧
    (stopSession demoReg "abc12345").2 =
      [Effect.dockerRm demoSession.containerName,
       Effect.umountLazy (pjoin demoSession.overlayDir "merged")] ∧
    (Registry.find (login [] demoSession.username "pw" envAlice [] [1] 0 5).2.1
        (randSeq [1] 8)).map Session.overlayDir = some demoSession.overlayDir :=
  ⟨(stopSession_storage guestReg "g1g1g1g1" guestSession rfl).1 rfl,
   (((stopSession_storage demoReg "abc12345" demoSession rfl).2 rfl)).1,
   (((stopSession_storage demoReg "abc12345" demoSession rfl).2 rfl)).2.2
     [] "pw" envAlice [] [1] 0 5 aliceConf rfl rfl rfl rfl (fun _ => rfl)
     rfl rfl rfl (by decide)⟩

/-- **C9** (confirmed): two successful logins authenticated against the
same persistent (non-ephemeral) user configuration both register their
session with `overlayDir = cfg.overlay` — the upper/work/merged tree is
shared per configured overlay path, not allocated per session — and
`stopSession` of either session lazily unmounts that shared
`<overlayDir>/merged` mountpoint. -/
theorem shared_overlay_between_logins
    (reg₁ reg₂ : Registry) (u₁ u₂ pw₁ pw₂ : String) (env₁ env₂ : Env)
    (gd₁ gd₂ idd₁ idd₂ : List Nat) (pd₁ pd₂ n₁ n₂ : Nat) (cfg : UserConf)
    (hform₁ : env₁.formOk = true) (hstat₁ : env₁.confExists = true)
    (hconf₁ : env₁.conf = some cfg) (hpw₁ : cfg.password = pw₁)
    (hmk₁ : ∀ d, env₁.mkdirOk d = true) (hmount₁ : env₁.mountOk = true)
    (hdocker₁ : env₁.dockerOk = true)
    (hform₂ : env₂.formOk = true) (hstat₂ : env₂.confExists = true)
    (hconf₂ : env₂.conf = some cfg) (hpw₂ : cfg.password = pw₂)
    (hmk₂ : ∀ d, env₂.mkdirOk d = true) (hmount₂ : env₂.mountOk = true)
    (hdocker₂ : env₂.dockerOk = true)
    (hne : cfg.overlay ≠ "ephemeral") :
    ∃ s₁ s₂ : Session,
      Registry.find (login reg₁ u₁ pw₁ env₁ gd₁ idd₁ pd₁ n₁).2.1
          (randSeq idd₁ 8) = some s₁ ∧
      Registry.find (login reg₂ u₂ pw₂ env₂ gd₂ idd₂ pd₂ n₂).2.1
          (randSeq idd₂ 8) = some s₂ ∧
      s₁.overlayDir = s₂.overlayDir ∧
      (∀ reg' : Registry, Registry.find reg' (randSeq idd₁ 8) = some s₁ →
          Effect.umountLazy (pjoin s₁.overlayDir "merged") ∈
            (stopSession reg' (randSeq idd₁ 8)).2) ∧
      (∀ reg' : Registry, Registry.find reg' (randSeq idd₂ 8) = some s₂ →
          Effect.umountLazy (pjoin s₂.overlayDir "merged") ∈
            (stopSession reg' (randSeq idd₂ 8)).2) := by
  refine
    ⟨{ username := u₁
       containerName := "desktop-" ++ u₁ ++ "-" ++ randSeq idd₁ 8
       overlayDir := cfg.overlay
       port := randomPort pd₁
       lastActive := n₁
       ephemeral := false },
     { username := u₂
       containerName := "desktop-" ++ u₂ ++ "-" ++ randSeq idd₂ 8
       overlayDir := cfg.overlay
       port := randomPort pd₂
       lastActive := n₂
       ephemeral := false },
     ?_, ?_, rfl, ?_, ?_⟩
  · rw [login_success reg₁ u₁ pw₁ env₁ gd₁ idd₁ pd₁ n₁ cfg hform₁ hstat₁
      hconf₁ hpw₁ hmk₁ hmount₁ hdocker₁ hne]
    exact Registry.find_insert_self _ _ _
  · rw [login_success reg₂ u₂ pw₂ env₂ gd₂ idd₂ pd₂ n₂ cfg hform₂ hstat₂
      hconf₂ hpw₂ hmk₂ hmount₂ hdocker₂ hne]
    exact Registry.find_insert_self _ _ _
  · intro reg' hfind
    simp [stopSession, hfind]
  · intro reg' hfind
    simp [stopSession, hfind]

/-- Witness for `shared_overlay_between_logins`: two logins against
Alice's configuration with different generator draws share
`/srv/overlays/alice`. -/
theorem shared_overlay_between_logins_witness :
    ∃ s₁ s₂ : Session,
      Registry.find (login [] "alice" "pw" envAlice [] [1] 0 5).2.1
          (randSeq [1] 8) = some s₁ ∧
      Registry.find (login [] "alice" "pw" envAlice [] [2] 1 6).2.1
          (randSeq [2] 8) = some s₂ ∧
      s₁.overlayDir = s₂.overlayDir ∧
      (∀ reg' : Registry, Registry.find reg' (randSeq [1] 8) = some s₁ →
          Effect.umountLazy (pjoin s₁.overlayDir "merged") ∈
            (stopSession reg' (randSeq [1] 8)).2) ∧
      (∀ reg' : Registry, Registry.find reg' (randSeq [2] 8) = some s₂ →
          Effect.umountLazy (pjoin s₂.overlayDir "merged") ∈
            (stopSession reg' (randSeq [2] 8)).2) :=
  shared_overlay_between_logins [] [] "alice" "alice" "pw" "pw" envAlice envAlice
    [] [] [1] [2] 0 1 5 6 aliceConf rfl rfl rfl rfl (fun _ => rfl) rfl rfl
    rfl rfl rfl rfl (fun _ => rfl) rfl rfl (by decide)

end LookingGlass
